import Mathlib

/-!
# MobaLiveCD Linux — verification of the device-discovery / boot-source
# validation core

Shallow embedding of `core/qemu_runner.py` and `core/nvme_handler.py`.
Python strings are modelled as `String`; string predicates (`startswith`,
`endswith`, `in`) are modelled on the character list of the string.
External effects (filesystem checks, subprocess output, process state)
are passed in explicitly as function arguments.
-/

namespace Moba

/-- Boolean infix test on lists (`sub` occurs contiguously in `l`). -/
def listInfixOf (sub : List Char) : List Char → Bool
  | [] => sub.isEmpty
  | c :: rest => sub.isPrefixOf (c :: rest) || listInfixOf sub rest

/-- Python `sub in s` (substring containment). -/
def containsSubstr (s sub : String) : Bool :=
  listInfixOf sub.toList s.toList

/-- Python `s.startswith p`. -/
def strStartsWith (s p : String) : Bool :=
  p.toList.isPrefixOf s.toList

/-- Python `s.endswith p`. -/
def strEndsWith (s p : String) : Bool :=
  p.toList.isSuffixOf s.toList

/-- Python `c in s` for a single character `c`. -/
def strContainsChar (s : String) (c : Char) : Bool :=
  s.toList.contains c

/-- Python `s.lower()` (ASCII case folding, which covers all strings the
program compares). -/
def strLower (s : String) : String :=
  String.mk (s.toList.map Char.toLower)

/-!
## `QEMURunner.validate_iso` (qemu_runner.py, lines 161-177)

The filesystem is abstracted: `pathExists` is the result of
`os.path.exists(iso_path)` and `sizeResult` the outcome of
`os.path.getsize(iso_path)` (`.error e` models an `OSError` with text `e`).
-/

def validate_iso (isoPath : String) (pathExists : Bool)
    (sizeResult : Except String Nat) : Bool × String :=
  if !pathExists then
    (false, "File does not exist")
  else if !(strEndsWith (strLower isoPath) ".iso") then
    (false, "File does not have .iso extension")
  else
    match sizeResult with
    | Except.error e => (false, "Cannot read file: " ++ e)
    | Except.ok size =>
      if size < 1024 * 1024 then
        (false, "File too small to be a valid ISO")
      else
        (true, "Valid ISO file")

/-!
## `NVMeHandler._format_size` (nvme_handler.py, lines 147-153)

The source repeatedly divides a float by `1024.0` and compares it with
`1024.0`; every intermediate value is exactly `n / 1024 ^ k`, which the
comparisons decide exactly (and which a double holds exactly for
`n < 2 ^ 53`).  The running value is therefore modelled by the pair
`(n, k)` standing for the exact rational `n / 1024 ^ k`.
-/

/-- One-decimal rendering of the exact value `num / den` (`den > 0`),
rounding half to even: models CPython's `f"{x:.1f}"` applied to the exact
value held by `x`. -/
def fmtOneDecimal (num den : Nat) : String :=
  let t := 10 * num
  let q := t / den
  let r := t % den
  let m := if 2 * r < den then q
           else if den < 2 * r then q + 1
           else if q % 2 = 0 then q else q + 1
  toString (m / 10) ++ "." ++ toString (m % 10)

/-- The unit loop of `_format_size`; the running value is `n / 1024 ^ k`,
and `n / 1024 ^ k < 1024 ↔ n < 1024 ^ (k + 1)`. -/
def formatSizeAux : List String → Nat → Nat → String
  | [], n, k => fmtOneDecimal n (1024 ^ k) ++ "P"
  | u :: us, n, k =>
    if n < 1024 ^ (k + 1) then fmtOneDecimal n (1024 ^ k) ++ u
    else formatSizeAux us n (k + 1)

/-- `NVMeHandler._format_size` on a byte count `n`. -/
def format_size (n : Nat) : String :=
  formatSizeAux ["B", "K", "M", "G", "T"] n 0

/-!
## `NVMeHandler._check_bootable` (nvme_handler.py, lines 155-182)

`size_str.replace('M', '')` removes every `'M'`; `float(...)` is modelled
by `pyFloat`, an exact-rational reading of CPython's decimal float
notation (optional surrounding whitespace, sign, digits with optional
fraction and exponent).  Non-finite spellings (`inf`, `nan`) and digit
underscores are read as failures; either way the `50 <= x <= 1024` window
of the caller rejects them, as it does in the source.
-/

/-- Python `s.replace(c, '')` for a single-character pattern. -/
def strRemoveChar (s : String) (c : Char) : String :=
  String.mk (s.toList.filter (fun d => d != c))

/-- Numeric value of a digit run (most significant first). -/
def digitsToNat (cs : List Char) : Nat :=
  cs.foldl (fun a c => 10 * a + (c.toNat - 48)) 0

/-- Exponent part of a float literal: empty, or `e`/`E` then a signed digit
run; `none` on trailing garbage. -/
def pyFloatExp : List Char → Option Int
  | [] => some 0
  | 'e' :: r => pyFloatSignedDigits r
  | 'E' :: r => pyFloatSignedDigits r
  | _ => none
where
  pyFloatSignedDigits : List Char → Option Int
    | '+' :: r => if !r.isEmpty && r.all (·.isDigit) then some (digitsToNat r) else none
    | '-' :: r => if !r.isEmpty && r.all (·.isDigit) then some (-(digitsToNat r : Int)) else none
    | r => if !r.isEmpty && r.all (·.isDigit) then some (digitsToNat r) else none

/-- Unsigned mantissa with optional fraction, then exponent. -/
def pyFloatCore (cs : List Char) : Option Rat :=
  let ip := cs.takeWhile (·.isDigit)
  let rest := cs.drop ip.length
  match rest with
  | '.' :: r =>
    let fp := r.takeWhile (·.isDigit)
    let r2 := r.drop fp.length
    if ip.isEmpty && fp.isEmpty then none
    else (pyFloatExp r2).map (fun e =>
      ((digitsToNat ip : Rat) + (digitsToNat fp : Rat) / 10 ^ fp.length) * (10 : Rat) ^ e)
  | r2 =>
    if ip.isEmpty then none
    else (pyFloatExp r2).map (fun e => (digitsToNat ip : Rat) * (10 : Rat) ^ e)

/-- Python `float(s)` on finite decimal notation, as an exact rational. -/
def pyFloat (s : String) : Option Rat :=
  match s.trim.toList with
  | '+' :: r => pyFloatCore r
  | '-' :: r => (pyFloatCore r).map (fun q => -q)
  | r => pyFloatCore r

/-- `bootable_fs` list of `_check_bootable`. -/
def bootable_fs : List String :=
  ["fat32", "vfat", "fat16", "ntfs", "ext2", "ext3", "ext4", "btrfs", "xfs"]

/-- `boot_labels` list of `_check_bootable`. -/
def boot_labels : List String :=
  ["boot", "efi", "system", "recovery", "windows", "linux"]

/-- `NVMeHandler._check_bootable` on the partition's `fstype`, `label` and
`size` fields (the unused `part_name` argument is dropped). -/
def check_bootable (fstype0 label0 size : String) : Bool :=
  let fstype := strLower fstype0
  let label := strLower label0
  if bootable_fs.contains fstype then true
  else if boot_labels.any (fun bl => containsSubstr label bl) then true
  else if strContainsChar size 'M' then
    match pyFloat (strRemoveChar size 'M') with
    | some size_mb =>
      decide ((50 : Rat) ≤ size_mb) && decide (size_mb ≤ (1024 : Rat)) &&
        (fstype == "fat32" || fstype == "vfat")
    | none => false
  else false

/-- Modelled from the claim of C10: the classifier with the EFI-size
heuristic (the third rule) deleted entirely. -/
def check_bootable_no_size (fstype0 label0 : String) : Bool :=
  let fstype := strLower fstype0
  let label := strLower label0
  if bootable_fs.contains fstype then true
  else if boot_labels.any (fun bl => containsSubstr label bl) then true
  else false

/-!
## `QEMURunner.build_qemu_command` (qemu_runner.py, lines 43-98)

The `options` keyword map is a structure of optional entries;
`options.get(key, default)` is `Option.getD`.  `self.use_kvm` is the
cached result of the startup KVM probe and `self.qemu_binary` the binary
resolved at construction; both are passed in.  `self.default_memory` is
the fixed string `"512M"`.
-/

structure QemuOptions where
  memory : Option String := none
  enable_kvm : Option Bool := none
  display : Option String := none
  vga : Option String := none
  enable_audio : Option Bool := none
  enable_network : Option Bool := none

def build_qemu_command (qemuBinary : String) (useKvm : Bool)
    (isoPath : String) (o : QemuOptions) : List String :=
  [qemuBinary]
  ++ ["-m", o.memory.getD "512M"]
  ++ (if useKvm && o.enable_kvm.getD true then ["-accel", "kvm"]
      else ["-accel", "tcg"])
  ++ (if useKvm then ["-cpu", "host"] else [])
  ++ (if o.display.getD "gtk" == "none" then ["-display", "none"]
      else ["-display", "gtk"])
  ++ ["-vga", o.vga.getD "std"]
  ++ ["-boot", "d"]
  ++ ["-cdrom", isoPath]
  ++ (if o.enable_audio.getD false then
        ["-audiodev", "alsa,id=audio0", "-device", "AC97,audiodev=audio0"]
      else [])
  ++ ["-usb", "-device", "usb-tablet"]
  ++ (if o.enable_network.getD true then
        ["-netdev", "user,id=net0", "-device", "rtl8139,netdev=net0"]
      else [])
  ++ ["-no-reboot"]

/-- `flag` immediately followed by `val` occurs in the argument list. -/
def hasPair : List String → String → String → Bool
  | [], _, _ => false
  | [_], _, _ => false
  | a :: b :: rest, f, v => (a == f && b == v) || hasPair (b :: rest) f v

/-!
## `QEMURunner.run_iso` (qemu_runner.py, lines 100-136)

The spawned process is abstracted into `ProcWorld`: `binaryMissing` is
`Popen` raising `FileNotFoundError`, `interrupted` a `KeyboardInterrupt`
during the startup wait, `exitedAfterGrace` the result of `process.poll()
is not None` after the fixed one-second sleep, `stderrText` the decoded
error stream from `communicate()` (empty when no bytes were captured), and
`pid` the process identifier.  The function's observable outcome is its
returned value — `Except.ok none` models the bare `return None` of the
source, which returns no handle — paired with the lines it prints.
-/

structure ProcWorld where
  pid : Nat
  binaryMissing : Bool
  interrupted : Bool
  exitedAfterGrace : Bool
  stderrText : String

def run_iso (qemuBinary : String) (useKvm : Bool) (isoPath : String)
    (o : QemuOptions) (isoExists : Bool) (w : ProcWorld) :
    Except String (Option Nat) × List String :=
  if !isoExists then
    (Except.error ("ISO file not found: " ++ isoPath), [])
  else
    let cmd := build_qemu_command qemuBinary useKvm isoPath o
    let log := ["Running: " ++ String.intercalate " " cmd]
    if w.binaryMissing then
      (Except.error ("QEMU binary '" ++ qemuBinary ++ "' not found"), log)
    else if w.interrupted then
      (Except.ok none, log)
    else if w.exitedAfterGrace then
      (Except.error ("QEMU failed: " ++
        (if w.stderrText != "" then w.stderrText else "QEMU failed to start")), log)
    else
      (Except.ok none,
        log ++ ["QEMU started successfully with PID: " ++ toString w.pid])

/-!
## `NVMeHandler` discovery (nvme_handler.py, lines 20-145)

The host is abstracted into `NvmeWorld`: `topLevel` is the parsed output
of the top-level `lsblk` call (`none` when that call fails or its output
is unparseable, triggering the fallback), `detail dev` the parsed
flattened children of the per-device `lsblk` call (`none` on a
`CalledProcessError`/`JSONDecodeError` for that device), and `fs` the raw
`/dev` view used by the fallback: directory entries, the block-device
stat, the `blockdev --getsize64` query (`none` on failure) and the
512-byte boot-signature read of `_check_bootable_fallback`.
-/

/-- A child record of the per-device `lsblk` JSON, with the `dict.get`
defaults already applied (`size` defaults to `Unknown`, the rest to `''`). -/
structure RawPart where
  name : String
  size : String
  fstype : String
  label : String
  uuid : String
  partuuid : String
  mountpoint : String
deriving DecidableEq

/-- A top-level `lsblk` device record (name and size, defaults applied). -/
structure TopDev where
  name : String
  size : String
deriving DecidableEq

/-- The `part_info` dict built for each accepted partition. -/
structure PartInfo where
  device : String
  name : String
  size : String
  fstype : String
  label : String
  uuid : String
  partuuid : String
  mountpoint : String
  parent_device : String
  bootable : Bool
deriving DecidableEq

/-- The `nvme_info` dict built for each NVMe device. -/
structure NvmeDevice where
  device : String
  name : String
  size : String
  partitions : List PartInfo
deriving DecidableEq

/-- `NVMeHandler._get_nvme_partitions`: on a failed or malformed detail
query the exception is caught and the empty list returned; otherwise
children whose name starts with `nvme` and contains `p` become records. -/
def get_nvme_partitions (detail : String → Option (List RawPart))
    (deviceName : String) : List PartInfo :=
  match detail deviceName with
  | none => []
  | some children =>
    (children.filter (fun p =>
        strStartsWith p.name "nvme" && strContainsChar p.name 'p')).map
      (fun p =>
        { device := "/dev/" ++ p.name
          name := p.name
          size := p.size
          fstype := p.fstype
          label := p.label
          uuid := p.uuid
          partuuid := p.partuuid
          mountpoint := p.mountpoint
          parent_device := "/dev/" ++ deviceName
          bootable := check_bootable p.fstype p.label p.size })

/-- Raw `/dev` world used by the fallback strategy. -/
structure FsWorld where
  entries : List String
  isBlock : String → Bool
  sizeQuery : String → Option Nat
  bootSig : String → Bool

/-- `NVMeHandler._get_device_size` via `blockdev --getsize64`. -/
def get_device_size (w : FsWorld) (devicePath : String) : String :=
  match w.sizeQuery devicePath with
  | some n => format_size n
  | none => "Unknown"

/-- The `nvme*n*` glob of the fallback: prefix `nvme`, then an `n`
somewhere in the remainder. -/
def matchesNvmeGlob (n : String) : Bool :=
  strStartsWith n "nvme" && (n.toList.drop 4).contains 'n'

/-- `NVMeHandler._detect_nvme_fallback`: block devices matching `nvme*n*`
under `/dev`, each with the partitions matching `<device>p*`. -/
def detect_nvme_fallback (w : FsWorld) : List NvmeDevice :=
  (w.entries.filter (fun dn =>
      matchesNvmeGlob dn && w.isBlock ("/dev/" ++ dn))).map
    (fun dn =>
      { device := "/dev/" ++ dn
        name := dn
        size := get_device_size w ("/dev/" ++ dn)
        partitions :=
          (w.entries.filter (fun pn =>
              strStartsWith pn (dn ++ "p") && w.isBlock ("/dev/" ++ pn))).map
            (fun pn =>
              { device := "/dev/" ++ pn
                name := pn
                size := get_device_size w ("/dev/" ++ pn)
                fstype := ""
                label := ""
                uuid := ""
                partuuid := ""
                mountpoint := ""
                parent_device := "/dev/" ++ dn
                bootable := w.bootSig ("/dev/" ++ pn) }) })

/-- The whole host view a discovery pass reads. -/
structure NvmeWorld where
  topLevel : Option (List TopDev)
  detail : String → Option (List RawPart)
  fs : FsWorld

/-- `NVMeHandler.detect_nvme_devices`: primary `lsblk` strategy, falling
back to `/dev` enumeration when the top-level query fails. -/
def detect_nvme_devices (w : NvmeWorld) : List NvmeDevice :=
  match w.topLevel with
  | some devs =>
    (devs.filter (fun d => strStartsWith d.name "nvme")).map
      (fun d =>
        { device := "/dev/" ++ d.name
          name := d.name
          size := d.size
          partitions := get_nvme_partitions w.detail d.name })
  | none => detect_nvme_fallback w.fs

/-- `NVMeHandler.is_nvme_partition` (nvme_handler.py, lines 212-214). -/
def is_nvme_partition (devicePath : String) : Bool :=
  strStartsWith devicePath "/dev/nvme" && strContainsChar devicePath 'p'

/-- `NVMeHandler.get_partition_info` over the current snapshot. -/
def get_partition_info (snapshot : List PartInfo) (devicePath : String) :
    Option PartInfo :=
  snapshot.find? (fun p => p.device == devicePath)

/-!
## `NVMeHandler.validate_nvme_partition` (nvme_handler.py, lines 227-260)

`pathExists` is `os.path.exists`; `stat` is the outcome of
`os.stat(device_path)` reduced to `S_ISBLK` (`.error e` an `OSError` with
text `e`); `snapshot` is `self.nvme_partitions` after the lazy discovery
pass the method may trigger.
-/

def validate_nvme_partition (devicePath : String) (pathExists : Bool)
    (stat : Except String Bool) (snapshot : List PartInfo) : Bool × String :=
  if !(is_nvme_partition devicePath) then
    (false, "Not an NVMe partition")
  else if !pathExists then
    (false, "Partition does not exist")
  else
    match stat with
    | Except.error e => (false, "Cannot access partition: " ++ e)
    | Except.ok isBlk =>
      if !isBlk then (false, "Not a valid block device")
      else
        match get_partition_info snapshot devicePath with
        | none => (false, "Could not get partition information")
        | some info =>
          if info.size == "Unknown" || info.size == "0B" then
            (false, "Partition appears to be empty")
          else if info.mountpoint != "" then
            (true, "Valid NVMe partition (currently mounted at " ++
              info.mountpoint ++ ")")
          else
            (true, "Valid NVMe partition")

end Moba

/-- Helper: the output of `fmtOneDecimal` is an integer part, a dot, and a
single digit. -/
theorem fmtOneDecimal_shape (num den : Nat) :
    ∃ i d : Nat, d < 10 ∧ Moba.fmtOneDecimal num den = toString i ++ "." ++ toString d :=
  ⟨_, _, Nat.mod_lt _ (by norm_num), rfl⟩

/-- C3: the ISO validator checks existence, then the case-insensitive
`.iso` extension, then the 1 MiB size floor, in that order, and succeeds
otherwise (in the worlds where the size query itself succeeds). -/
theorem validate_iso_ordered_checks (isoPath : String) (n : Nat) :
    (∀ sz, Moba.validate_iso isoPath false sz = (false, "File does not exist")) ∧
    (Moba.strEndsWith (Moba.strLower isoPath) ".iso" = false →
      Moba.validate_iso isoPath true (Except.ok n) =
        (false, "File does not have .iso extension")) ∧
    (Moba.strEndsWith (Moba.strLower isoPath) ".iso" = true → n < 1048576 →
      Moba.validate_iso isoPath true (Except.ok n) =
        (false, "File too small to be a valid ISO")) ∧
    (Moba.strEndsWith (Moba.strLower isoPath) ".iso" = true → 1048576 ≤ n →
      Moba.validate_iso isoPath true (Except.ok n) = (true, "Valid ISO file")) := by
  refine ⟨fun sz => rfl, fun hext => ?_, fun hext hn => ?_, fun hext hn => ?_⟩
  · simp [Moba.validate_iso, hext]
  · simp [Moba.validate_iso, hext]
    omega
  · simp [Moba.validate_iso, hext]
    omega

/-- C3 witness: the claim's own examples — a 5 MiB `test.img` fails on the
extension, a 500-byte `test.iso` fails on size, a 5 MiB `test.iso` is valid. -/
theorem validate_iso_ordered_checks_witness :
    Moba.validate_iso "test.img" true (Except.ok (5 * 1024 * 1024)) =
      (false, "File does not have .iso extension") ∧
    Moba.validate_iso "test.iso" true (Except.ok 500) =
      (false, "File too small to be a valid ISO") ∧
    Moba.validate_iso "test.iso" true (Except.ok (5 * 1024 * 1024)) =
      (true, "Valid ISO file") :=
  ⟨(validate_iso_ordered_checks "test.img" (5 * 1024 * 1024)).2.1 (by decide),
   (validate_iso_ordered_checks "test.iso" 500).2.2.1 (by decide) (by decide),
   (validate_iso_ordered_checks "test.iso" (5 * 1024 * 1024)).2.2.2 (by decide) (by decide)⟩

/-- C8 (amended): for byte counts below `1024 ^ 6` the formatter renders the
exact scaled value, with one decimal place followed by the unit letter, in
the first unit (from B upward) whose scaled value is below 1024 — the
largest unit keeping the value at least 1.  For `1024 ^ 6` and beyond the
`P` unit is used even though the scaled value is not below 1024. -/
theorem format_size_unit_selection (n : Nat) (h : n < 1024 ^ 6) :
    ∃ k, k < 6 ∧ n < 1024 ^ (k + 1) ∧ (k = 0 ∨ 1024 ^ k ≤ n) ∧
      Moba.format_size n =
        Moba.fmtOneDecimal n (1024 ^ k) ++ ["B", "K", "M", "G", "T", "P"].getD k "" ∧
      ∃ i d : Nat, d < 10 ∧ Moba.fmtOneDecimal n (1024 ^ k) = toString i ++ "." ++ toString d := by
  by_cases h1 : n < 1024
  · exact ⟨0, by norm_num, by simpa using h1, Or.inl rfl,
      by simp [Moba.format_size, Moba.formatSizeAux, h1], fmtOneDecimal_shape n _⟩
  by_cases h2 : n < 1048576
  · exact ⟨1, by norm_num, by simpa using h2, Or.inr (by simpa using Nat.le_of_not_lt h1),
      by simp [Moba.format_size, Moba.formatSizeAux, h1, h2], fmtOneDecimal_shape n _⟩
  by_cases h3 : n < 1073741824
  · exact ⟨2, by norm_num, by simpa using h3, Or.inr (by simpa using Nat.le_of_not_lt h2),
      by simp [Moba.format_size, Moba.formatSizeAux, h1, h2, h3], fmtOneDecimal_shape n _⟩
  by_cases h4 : n < 1099511627776
  · exact ⟨3, by norm_num, by simpa using h4, Or.inr (by simpa using Nat.le_of_not_lt h3),
      by simp [Moba.format_size, Moba.formatSizeAux, h1, h2, h3, h4], fmtOneDecimal_shape n _⟩
  by_cases h5 : n < 1125899906842624
  · exact ⟨4, by norm_num, by simpa using h5, Or.inr (by simpa using Nat.le_of_not_lt h4),
      by simp [Moba.format_size, Moba.formatSizeAux, h1, h2, h3, h4, h5],
      fmtOneDecimal_shape n _⟩
  · exact ⟨5, by norm_num, by simpa using h, Or.inr (by simpa using Nat.le_of_not_lt h5),
      by simp [Moba.format_size, Moba.formatSizeAux, h1, h2, h3, h4, h5],
      fmtOneDecimal_shape n _⟩

/-- C8 witness: 1536 bytes render as `1.5K` — unit index 1 (`K`). -/
theorem format_size_unit_selection_witness :
    1536 < 1024 ^ 6 ∧
    (∃ k, k < 6 ∧ 1536 < 1024 ^ (k + 1) ∧ (k = 0 ∨ 1024 ^ k ≤ 1536) ∧
      Moba.format_size 1536 =
        Moba.fmtOneDecimal 1536 (1024 ^ k) ++ ["B", "K", "M", "G", "T", "P"].getD k "" ∧
      ∃ i d : Nat, d < 10 ∧ Moba.fmtOneDecimal 1536 (1024 ^ k) = toString i ++ "." ++ toString d) :=
  ⟨by norm_num, format_size_unit_selection 1536 (by norm_num)⟩

/-- C8 counterexample: at `n = 1024 ^ 6` the loop exhausts the unit list and
prints `1024.0P`, although the value scaled to `P` units is 1024, not below
1024 — so no unit with a scaled value `< 1024` exists, contrary to the
claim's description holding for every byte count. -/
theorem format_size_claim_counterexample :
    Moba.format_size (1024 ^ 6) = "1024.0P" ∧ ¬((1024 ^ 6 : Nat) / 1024 ^ 5 < 1024) := by
  refine ⟨by decide, by norm_num⟩

/-- Helper: `listInfixOf` decides contiguous containment. -/
theorem listInfixOf_iff (sub : List Char) (l : List Char) :
    Moba.listInfixOf sub l = true ↔ sub <:+: l := by
  induction l with
  | nil =>
    simp [Moba.listInfixOf, List.isEmpty_iff]
  | cons c rest ih =>
    simp [Moba.listInfixOf, List.isPrefixOf_iff_prefix, ih, List.infix_cons_iff]


/-- Helper: `containsSubstr` decides substring containment. -/
theorem containsSubstr_iff (s sub : String) :
    Moba.containsSubstr s sub = true ↔ sub.toList <:+: s.toList := by
  simp [Moba.containsSubstr, listInfixOf_iff]

/-- C4: the classifier returns true exactly when one of the three rules
holds — known bootable filesystem type, boot-related label substring, or
megabyte size in [50, 1024] with a FAT filesystem — and in particular a
`zfs_member` partition with empty label and size `1T` is not bootable. -/
theorem check_bootable_rule_disjunction (fstype label size : String) :
    (Moba.check_bootable fstype label size = true ↔
      (Moba.strLower fstype ∈ Moba.bootable_fs ∨
       (∃ bl ∈ Moba.boot_labels, bl.toList <:+: (Moba.strLower label).toList) ∨
       (Moba.strContainsChar size 'M' = true ∧
        ∃ q, Moba.pyFloat (Moba.strRemoveChar size 'M') = some q ∧
          (50 : Rat) ≤ q ∧ q ≤ (1024 : Rat) ∧
          (Moba.strLower fstype = "fat32" ∨ Moba.strLower fstype = "vfat")))) ∧
    Moba.check_bootable "zfs_member" "" "1T" = false := by
  constructor
  · cases hq : Moba.pyFloat (Moba.strRemoveChar size 'M') with
    | none => simp [Moba.check_bootable, hq, containsSubstr_iff]
    | some q => simp [Moba.check_bootable, hq, containsSubstr_iff, and_assoc]
  · decide

/-- C10: the EFI-size heuristic is redundant — its FAT filesystem condition
already triggers the known-bootable-set rule, so deleting the size rule
never changes the classifier's verdict. -/
theorem check_bootable_size_rule_redundant (fstype label size : String) :
    Moba.check_bootable fstype label size = Moba.check_bootable_no_size fstype label := by
  by_cases hm : Moba.strLower fstype ∈ Moba.bootable_fs
  · simp [Moba.check_bootable, Moba.check_bootable_no_size, hm]
  · by_cases hl : ∃ bl ∈ Moba.boot_labels,
        Moba.containsSubstr (Moba.strLower label) bl = true
    · simp [Moba.check_bootable, Moba.check_bootable_no_size, hm, hl]
    · have h32 : Moba.strLower fstype ≠ "fat32" := fun he => hm (by rw [he]; decide)
      have h16 : Moba.strLower fstype ≠ "vfat" := fun he => hm (by rw [he]; decide)
      cases hq : Moba.pyFloat (Moba.strRemoveChar size 'M') with
      | none => simp [Moba.check_bootable, Moba.check_bootable_no_size, hm, hl, hq]
      | some q =>
        simp [Moba.check_bootable, Moba.check_bootable_no_size, hm, hl, hq, h32, h16]

set_option maxHeartbeats 3200000 in
/-- C1 (amended): the built command is hardware-accelerated (`-accel kvm`)
iff KVM is available AND the `enable_kvm` option is not explicitly false,
and software-emulated (`-accel tcg`) otherwise; but the host-mirroring
`-cpu host` flag is present iff KVM is available on the host, regardless of
the `enable_kvm` option — so disabling acceleration on a KVM-capable host
still mirrors the host CPU. -/
theorem build_qemu_command_accel_cpu (bin : String) (useKvm : Bool)
    (iso : String) (o : Moba.QemuOptions) :
    Moba.hasPair (Moba.build_qemu_command bin useKvm iso o) "-accel" "kvm"
      = (useKvm && o.enable_kvm.getD true) ∧
    Moba.hasPair (Moba.build_qemu_command bin useKvm iso o) "-accel" "tcg"
      = !(useKvm && o.enable_kvm.getD true) ∧
    Moba.hasPair (Moba.build_qemu_command bin useKvm iso o) "-cpu" "host"
      = useKvm := by
  cases useKvm <;>
    cases hek : o.enable_kvm.getD true <;>
      cases hd : o.display.getD "gtk" == "none" <;>
        cases hau : o.enable_audio.getD false <;>
          cases hnet : o.enable_network.getD true <;>
            simp [Moba.build_qemu_command, Moba.hasPair, hek, hd, hau, hnet]

/-- C1 counterexample: with KVM available on the host but the option
explicitly disabling it, the command is software-emulated (`-accel tcg`)
yet still carries the host-mirroring `-cpu host` flag — not a generic CPU
model as the claim states. -/
theorem build_qemu_command_claim_counterexample :
    Moba.hasPair (Moba.build_qemu_command "qemu-system-x86_64" true "/tmp/test.iso"
      { enable_kvm := some false }) "-accel" "tcg" = true ∧
    Moba.hasPair (Moba.build_qemu_command "qemu-system-x86_64" true "/tmp/test.iso"
      { enable_kvm := some false }) "-cpu" "host" = true := by
  exact ⟨rfl, rfl⟩

/-- Helper: every string contains the empty string. -/
theorem containsSubstr_empty (s : String) : Moba.containsSubstr s "" = true := by
  rw [containsSubstr_iff]
  exact List.nil_infix

/-- Helper: `a ++ b` contains `b`. -/
theorem containsSubstr_append_right (a b : String) :
    Moba.containsSubstr (a ++ b) b = true := by
  rw [containsSubstr_iff]
  show b.data <:+: (a ++ b).data
  rw [String.data_append]
  exact (List.suffix_append a.data b.data).isInfix

/-- C2 (amended): for an existing boot source (and no interrupt or missing
binary), if the process has exited when polled after the grace period the
launch raises an error whose message contains the captured error-stream
text; if it is still running, the call completes without error but returns
no value at all (`None`) — the process identifier appears only in the
startup log line, not in any returned handle. -/
theorem run_iso_grace_window (qemuBinary : String) (useKvm : Bool)
    (isoPath : String) (o : Moba.QemuOptions) (w : Moba.ProcWorld)
    (hb : w.binaryMissing = false) (hi : w.interrupted = false) :
    (w.exitedAfterGrace = true →
      ∃ msg, (Moba.run_iso qemuBinary useKvm isoPath o true w).1 = Except.error msg ∧
        Moba.containsSubstr msg w.stderrText = true) ∧
    (w.exitedAfterGrace = false →
      (Moba.run_iso qemuBinary useKvm isoPath o true w).1 = Except.ok none ∧
      ("QEMU started successfully with PID: " ++ toString w.pid) ∈
        (Moba.run_iso qemuBinary useKvm isoPath o true w).2) := by
  constructor
  · intro hx
    refine ⟨"QEMU failed: " ++
      (if w.stderrText != "" then w.stderrText else "QEMU failed to start"), ?_, ?_⟩
    · simp [Moba.run_iso, hb, hi, hx]
    · cases hs : (w.stderrText != "") with
      | true => simp [hs, containsSubstr_append_right]
      | false =>
        have : w.stderrText = "" := by simpa using hs
        simp [hs, this, containsSubstr_empty]
  · intro hx
    refine ⟨by simp [Moba.run_iso, hb, hi, hx], ?_⟩
    simp [Moba.run_iso, hb, hi, hx]

/-- C2 witness: a process dead after the grace period with stderr `boom`
fails with a message containing `boom`; a live process yields a plain
successful return with the PID in the log line. -/
theorem run_iso_grace_window_witness :
    (∃ msg, (Moba.run_iso "qemu-system-x86_64" true "/tmp/t.iso" {} true
        ⟨1234, false, false, true, "boom"⟩).1 = Except.error msg ∧
      Moba.containsSubstr msg "boom" = true) ∧
    ((Moba.run_iso "qemu-system-x86_64" true "/tmp/t.iso" {} true
        ⟨1234, false, false, false, ""⟩).1 = Except.ok none ∧
      ("QEMU started successfully with PID: " ++ toString 1234) ∈
        (Moba.run_iso "qemu-system-x86_64" true "/tmp/t.iso" {} true
          ⟨1234, false, false, false, ""⟩).2) :=
  ⟨(run_iso_grace_window "qemu-system-x86_64" true "/tmp/t.iso" {}
      ⟨1234, false, false, true, "boom"⟩ rfl rfl).1 rfl,
   (run_iso_grace_window "qemu-system-x86_64" true "/tmp/t.iso" {}
      ⟨1234, false, false, false, ""⟩ rfl rfl).2 rfl⟩

/-- C2 counterexample: on a successful launch the function's returned value
is `None` — it contains no handle and no process identifier, contrary to
the claim that a handle with a non-empty process identifier is returned. -/
theorem run_iso_claim_counterexample :
    (Moba.run_iso "qemu-system-x86_64" true "/tmp/t.iso" {} true
      ⟨1234, false, false, false, ""⟩).1 = Except.ok none := by
  rfl

/-- C5: a device path lacking the `/dev/nvme` prefix or the `p` marker is
rejected with the not-an-NVMe-partition message regardless of whether it
exists, what its stat says, or what the inventory snapshot holds — no
filesystem check influences the result. -/
theorem validate_nvme_partition_wrong_class (devicePath : String)
    (h : Moba.is_nvme_partition devicePath = false) :
    ∀ (pathExists : Bool) (stat : Except String Bool)
      (snapshot : List Moba.PartInfo),
      Moba.validate_nvme_partition devicePath pathExists stat snapshot =
        (false, "Not an NVMe partition") := by
  intro pe st sn
  simp [Moba.validate_nvme_partition, h]

/-- C5 witness: `/dev/sda1`, even existing, a block device, and present in
the snapshot, is rejected as not an NVMe partition. -/
theorem validate_nvme_partition_wrong_class_witness :
    Moba.is_nvme_partition "/dev/sda1" = false ∧
    Moba.validate_nvme_partition "/dev/sda1" true (Except.ok true)
        [{ device := "/dev/sda1", name := "sda1", size := "512M",
           fstype := "vfat", label := "", uuid := "", partuuid := "",
           mountpoint := "", parent_device := "/dev/sda", bootable := true }] =
      (false, "Not an NVMe partition") :=
  ⟨by decide, validate_nvme_partition_wrong_class "/dev/sda1" (by decide)
    true (Except.ok true) _⟩

/-- C6 (code bug): the emptiness check tests only the literal strings
`Unknown` and `0B`, but the fallback discovery renders a zero-byte
partition's size as `format_size 0 = "0.0B"`; such a record passes all
checks and is reported as a valid NVMe partition instead of an empty one. -/
theorem validate_nvme_partition_zero_size_bug :
    Moba.format_size 0 = "0.0B" ∧
    Moba.format_size 0 ≠ "0B" ∧
    Moba.format_size 0 ≠ "Unknown" ∧
    Moba.validate_nvme_partition "/dev/nvme0n1p1" true (Except.ok true)
        [{ device := "/dev/nvme0n1p1", name := "nvme0n1p1",
           size := Moba.format_size 0, fstype := "", label := "", uuid := "",
           partuuid := "", mountpoint := "", parent_device := "/dev/nvme0n1",
           bootable := false }] =
      (true, "Valid NVMe partition") := by
  exact ⟨by decide, by decide, by decide, by decide⟩

/-- C7 (amended): when one device's detail query fails, that device is NOT
omitted — it is returned with an empty partition list, while all sibling
devices are processed and returned unaffected (the returned device names
are exactly the NVMe-prefixed top-level names, in order). -/
theorem detect_nvme_devices_failed_detail (w : Moba.NvmeWorld)
    (devs : List Moba.TopDev) (d : Moba.TopDev)
    (htop : w.topLevel = some devs) (hmem : d ∈ devs)
    (hname : Moba.strStartsWith d.name "nvme" = true)
    (hfail : w.detail d.name = none) :
    (Moba.detect_nvme_devices w).map (fun dev => dev.name) =
      (devs.filter (fun dd => Moba.strStartsWith dd.name "nvme")).map
        (fun dd => dd.name) ∧
    ∃ info ∈ Moba.detect_nvme_devices w,
      info.name = d.name ∧ info.partitions = [] := by
  constructor
  · simp [Moba.detect_nvme_devices, htop, List.map_map]
  · refine ⟨⟨"/dev/" ++ d.name, d.name, d.size,
      Moba.get_nvme_partitions w.detail d.name⟩, ?_, rfl, ?_⟩
    · rw [Moba.detect_nvme_devices, htop]
      exact List.mem_map_of_mem _ (List.mem_filter.mpr ⟨hmem, hname⟩)
    · simp [Moba.get_nvme_partitions, hfail]

/-- C7 witness: instantiating the amended statement on a two-device world
where `nvme0n1`'s detail query fails and `nvme1n1`'s succeeds. -/
theorem detect_nvme_devices_failed_detail_witness :
    ((Moba.detect_nvme_devices
      { topLevel := some [⟨"nvme0n1", "931.5G"⟩, ⟨"nvme1n1", "931.5G"⟩]
        detail := fun n => if n == "nvme1n1"
          then some [⟨"nvme1n1p1", "512M", "vfat", "EFI", "", "", ""⟩] else none
        fs := ⟨[], fun _ => false, fun _ => none, fun _ => false⟩ }).map
        (fun dev => dev.name) =
      (([⟨"nvme0n1", "931.5G"⟩, ⟨"nvme1n1", "931.5G"⟩] :
          List Moba.TopDev).filter
        (fun dd => Moba.strStartsWith dd.name "nvme")).map (fun dd => dd.name) ∧
    ∃ info ∈ Moba.detect_nvme_devices
      { topLevel := some [⟨"nvme0n1", "931.5G"⟩, ⟨"nvme1n1", "931.5G"⟩]
        detail := fun n => if n == "nvme1n1"
          then some [⟨"nvme1n1p1", "512M", "vfat", "EFI", "", "", ""⟩] else none
        fs := ⟨[], fun _ => false, fun _ => none, fun _ => false⟩ },
      info.name = "nvme0n1" ∧ info.partitions = []) :=
  detect_nvme_devices_failed_detail _ _ ⟨"nvme0n1", "931.5G"⟩ rfl
    (by decide) (by decide) rfl

/-- C7 counterexample: in that same world the device whose detail query
failed still appears in the returned list (with zero partitions) next to
its sibling (with one) — it is not omitted as the claim states. -/
theorem detect_nvme_devices_failed_detail_counterexample :
    (Moba.detect_nvme_devices
      { topLevel := some [⟨"nvme0n1", "931.5G"⟩, ⟨"nvme1n1", "931.5G"⟩]
        detail := fun n => if n == "nvme1n1"
          then some [⟨"nvme1n1p1", "512M", "vfat", "EFI", "", "", ""⟩] else none
        fs := ⟨[], fun _ => false, fun _ => none, fun _ => false⟩ }).map
      (fun dev => (dev.name, dev.partitions.length)) =
      [("nvme0n1", 0), ("nvme1n1", 1)] := by
  decide

/-- Helper: prepending a fixed string is injective. -/
theorem append_left_injective (pre : String) :
    Function.Injective (fun s : String => pre ++ s) := by
  intro a b h
  have h2 := congrArg String.data h
  rw [String.data_append, String.data_append] at h2
  exact String.ext (List.append_cancel_left h2)

/-- Helper: `startswith` is preserved by prepending the same string. -/
theorem strStartsWith_append_of (pre a b : String)
    (h : Moba.strStartsWith a b = true) :
    Moba.strStartsWith (pre ++ a) (pre ++ b) = true := by
  unfold Moba.strStartsWith at h ⊢
  rw [ List.isPrefixOf_iff_prefix] at h ⊢
  show (pre ++ b).data <+: (pre ++ a).data
  rw [String.data_append, String.data_append]
  exact (List.prefix_append_right_inj pre.data).mpr h

/-- Helper: a prefix of `s` is still a prefix of `s ++ x`. -/
theorem strStartsWith_append_extend (s x b : String)
    (h : Moba.strStartsWith s b = true) :
    Moba.strStartsWith (s ++ x) b = true := by
  unfold Moba.strStartsWith at h ⊢
  rw [ List.isPrefixOf_iff_prefix] at h ⊢
  show b.data <+: (s ++ x).data
  rw [String.data_append]
  exact h.trans (List.prefix_append s.data x.data)

/-- Helper: `startswith` is transitive. -/
theorem strStartsWith_trans {s t u : String}
    (h1 : Moba.strStartsWith s t = true) (h2 : Moba.strStartsWith t u = true) :
    Moba.strStartsWith s u = true := by
  unfold Moba.strStartsWith at h1 h2 ⊢
  rw [ List.isPrefixOf_iff_prefix] at h1 h2 ⊢
  exact h2.trans h1

/-- Helper: a character of `b` is a character of `a ++ b`. -/
theorem strContainsChar_append_right (a b : String) (c : Char)
    (h : Moba.strContainsChar b c = true) :
    Moba.strContainsChar (a ++ b) c = true := by
  unfold Moba.strContainsChar at h ⊢
  unfold List.contains at h ⊢
  rw [List.elem_iff] at h ⊢
  show c ∈ (a ++ b).data
  rw [String.data_append]
  exact List.mem_append_right a.data h

/-- Helper: a character of a prefix is a character of the whole string. -/
theorem strContainsChar_of_startsWith (s pre : String) (c : Char)
    (h1 : Moba.strStartsWith s pre = true)
    (h2 : Moba.strContainsChar pre c = true) :
    Moba.strContainsChar s c = true := by
  unfold Moba.strStartsWith at h1
  unfold Moba.strContainsChar at h2 ⊢
  unfold List.contains at h2 ⊢
  rw [ List.isPrefixOf_iff_prefix] at h1
  rw [List.elem_iff] at h2 ⊢
  exact h1.subset h2

/-- Helper: in a list whose `f`-image is duplicate-free, exactly one
element shares the `f`-value of a member `a`. -/
theorem length_filter_eq_one_of_nodup {α : Type} (f : α → String) (a : α) :
    ∀ l : List α, (l.map f).Nodup → a ∈ l →
      (l.filter (fun x => f x == f a)).length = 1 := by
  intro l
  induction l with
  | nil => intro _ ha; cases ha
  | cons b t ih =>
    intro hn ha
    rw [List.map_cons, List.nodup_cons] at hn
    rcases List.mem_cons.mp ha with heq | hat
    · rw [heq, List.filter_cons]
      have hfb : (f b == f b) = true := by simp
      rw [if_pos hfb]
      have hnil : t.filter (fun x => f x == f b) = [] := by
        refine List.filter_eq_nil_iff.mpr (fun x hx hbeq => ?_)
        refine hn.1 ?_
        rw [← eq_of_beq hbeq]
        exact List.mem_map_of_mem f hx
      rw [hnil]
      rfl
    · rw [List.filter_cons]
      have hfb : (f b == f a) = false := by
        refine beq_eq_false_iff_ne.mpr (fun he => ?_)
        exact hn.1 (he ▸ List.mem_map_of_mem f hat)
      rw [if_neg (by simp [hfb])]
      exact ih hn.2 hat

/-- C9: every partition record a discovery pass returns — via the primary
or the fallback strategy — has a device path starting with `/dev/nvme` and
containing the `p` partition marker, and a parent device path equal to the
device path of exactly one device record in the same snapshot (assuming
the host lists each device once: duplicate-free top-level names and `/dev`
entries). -/
theorem discovery_partition_invariant (w : Moba.NvmeWorld)
    (hnodupTop : ∀ devs, w.topLevel = some devs →
      (devs.map (fun d => d.name)).Nodup)
    (hnodupFs : w.fs.entries.Nodup) :
    ∀ dev ∈ Moba.detect_nvme_devices w, ∀ p ∈ dev.partitions,
      Moba.strStartsWith p.device "/dev/nvme" = true ∧
      Moba.strContainsChar p.device 'p' = true ∧
      ((Moba.detect_nvme_devices w).filter
        (fun d2 => d2.device == p.parent_device)).length = 1 := by
  intro dev hdev p hp
  cases htop : w.topLevel with
  | some devs =>
    have hdev0 := hdev
    simp only [Moba.detect_nvme_devices, htop] at hdev
    obtain ⟨d0, hd0f, hdevEq⟩ := List.mem_map.mp hdev
    obtain ⟨hd0mem, hd0name⟩ := List.mem_filter.mp hd0f
    subst hdevEq
    have hp' : p ∈ Moba.get_nvme_partitions w.detail d0.name := hp
    cases hdet : w.detail d0.name with
    | none =>
      simp only [Moba.get_nvme_partitions, hdet] at hp'
      exact absurd hp' (List.not_mem_nil p)
    | some children =>
      simp only [Moba.get_nvme_partitions, hdet] at hp'
      obtain ⟨rp, hrpf, hpEq⟩ := List.mem_map.mp hp'
      obtain ⟨hrpmem, hrpcond⟩ := List.mem_filter.mp hrpf
      rw [Bool.and_eq_true] at hrpcond
      obtain ⟨hrpStart, hrpP⟩ := hrpcond
      subst hpEq
      refine ⟨?_, ?_, ?_⟩
      · show Moba.strStartsWith ("/dev/" ++ rp.name) "/dev/nvme" = true
        have h3 := strStartsWith_append_of "/dev/" rp.name "nvme" hrpStart
        rw [show ("/dev/" ++ "nvme" : String) = "/dev/nvme" from rfl] at h3
        exact h3
      · exact strContainsChar_append_right "/dev/" rp.name 'p' hrpP
      · have hnames := hnodupTop devs htop
        have h1 : ((devs.filter (fun d =>
            Moba.strStartsWith d.name "nvme")).map (fun d => d.name)).Nodup :=
          List.Nodup.sublist (List.Sublist.map _ (List.filter_sublist devs)) hnames
        have h2 : ((Moba.detect_nvme_devices w).map (fun x => x.device)).Nodup := by
          have e1 : (Moba.detect_nvme_devices w).map (fun x => x.device) =
              ((devs.filter (fun d => Moba.strStartsWith d.name "nvme")).map
                (fun d => d.name)).map (fun s => "/dev/" ++ s) := by
            simp only [Moba.detect_nvme_devices, htop, List.map_map]
            rfl
          rw [e1]
          exact List.Nodup.map (append_left_injective "/dev/") h1
        exact length_filter_eq_one_of_nodup (fun x : Moba.NvmeDevice => x.device)
          ⟨"/dev/" ++ d0.name, d0.name, d0.size,
            Moba.get_nvme_partitions w.detail d0.name⟩
          (Moba.detect_nvme_devices w) h2 hdev0
  | none =>
    have hdev0 := hdev
    simp only [Moba.detect_nvme_devices, htop, Moba.detect_nvme_fallback] at hdev
    obtain ⟨dn, hdnf, hdevEq⟩ := List.mem_map.mp hdev
    obtain ⟨hdnmem, hdncond⟩ := List.mem_filter.mp hdnf
    rw [Bool.and_eq_true] at hdncond
    obtain ⟨hdnGlob, hdnBlk⟩ := hdncond
    unfold Moba.matchesNvmeGlob at hdnGlob
    rw [Bool.and_eq_true] at hdnGlob
    obtain ⟨hdnStart, _⟩ := hdnGlob
    subst hdevEq
    have hp' : p ∈ (w.fs.entries.filter (fun pn =>
        Moba.strStartsWith pn (dn ++ "p") && w.fs.isBlock ("/dev/" ++ pn))).map
        (fun pn => (⟨"/dev/" ++ pn, pn, Moba.get_device_size w.fs ("/dev/" ++ pn),
          "", "", "", "", "", "/dev/" ++ dn,
          w.fs.bootSig ("/dev/" ++ pn)⟩ : Moba.PartInfo)) := hp
    obtain ⟨pn, hpnf, hpEq⟩ := List.mem_map.mp hp'
    obtain ⟨hpnmem, hpncond⟩ := List.mem_filter.mp hpnf
    rw [Bool.and_eq_true] at hpncond
    obtain ⟨hpnStart, hpnBlk⟩ := hpncond
    subst hpEq
    refine ⟨?_, ?_, ?_⟩
    · show Moba.strStartsWith ("/dev/" ++ pn) "/dev/nvme" = true
      have h1 : Moba.strStartsWith (dn ++ "p") "nvme" = true :=
        strStartsWith_append_extend dn "p" "nvme" hdnStart
      have h2 : Moba.strStartsWith pn "nvme" = true := strStartsWith_trans hpnStart h1
      have h3 := strStartsWith_append_of "/dev/" pn "nvme" h2
      rw [show ("/dev/" ++ "nvme" : String) = "/dev/nvme" from rfl] at h3
      exact h3
    · have h1 : Moba.strContainsChar (dn ++ "p") 'p' = true :=
        strContainsChar_append_right dn "p" 'p' (by decide)
      have h2 : Moba.strContainsChar pn 'p' = true :=
        strContainsChar_of_startsWith pn (dn ++ "p") 'p' hpnStart h1
      exact strContainsChar_append_right "/dev/" pn 'p' h2
    · have h1 : (w.fs.entries.filter (fun d =>
          Moba.matchesNvmeGlob d && w.fs.isBlock ("/dev/" ++ d))).Nodup :=
        List.Nodup.filter _ hnodupFs
      have h2 : ((Moba.detect_nvme_devices w).map (fun x => x.device)).Nodup := by
        have e1 : (Moba.detect_nvme_devices w).map (fun x => x.device) =
            (w.fs.entries.filter (fun d =>
              Moba.matchesNvmeGlob d && w.fs.isBlock ("/dev/" ++ d))).map
              (fun s => "/dev/" ++ s) := by
          simp only [Moba.detect_nvme_devices, htop, Moba.detect_nvme_fallback,
            List.map_map]
          rfl
        rw [e1]
        exact List.Nodup.map (append_left_injective "/dev/") h1
      exact length_filter_eq_one_of_nodup (fun x : Moba.NvmeDevice => x.device)
        ⟨"/dev/" ++ dn, dn, Moba.get_device_size w.fs ("/dev/" ++ dn),
          (w.fs.entries.filter (fun pn2 =>
              Moba.strStartsWith pn2 (dn ++ "p") && w.fs.isBlock ("/dev/" ++ pn2))).map
            (fun pn2 => (⟨"/dev/" ++ pn2, pn2,
              Moba.get_device_size w.fs ("/dev/" ++ pn2), "", "", "", "", "",
              "/dev/" ++ dn, w.fs.bootSig ("/dev/" ++ pn2)⟩ : Moba.PartInfo))⟩
        (Moba.detect_nvme_devices w) h2 hdev0

/-- C9 witness: on a one-device world, the partition `/dev/nvme0n1p1` has
the class prefix, the `p` marker, and exactly one matching parent device. -/
theorem discovery_partition_invariant_witness :
    Moba.strStartsWith "/dev/nvme0n1p1" "/dev/nvme" = true ∧
    Moba.strContainsChar "/dev/nvme0n1p1" 'p' = true ∧
    ((Moba.detect_nvme_devices
      { topLevel := some [⟨"nvme0n1", "1T"⟩]
        detail := fun _ => some [⟨"nvme0n1p1", "512M", "vfat", "", "", "", ""⟩]
        fs := ⟨[], fun _ => false, fun _ => none, fun _ => false⟩ }).filter
      (fun d2 => d2.device == "/dev/nvme0n1")).length = 1 :=
  discovery_partition_invariant
    { topLevel := some [⟨"nvme0n1", "1T"⟩]
      detail := fun _ => some [⟨"nvme0n1p1", "512M", "vfat", "", "", "", ""⟩]
      fs := ⟨[], fun _ => false, fun _ => none, fun _ => false⟩ }
    (fun devs h => by injection h with h2; subst h2; decide)
    (by decide)
    ⟨"/dev/nvme0n1", "nvme0n1", "1T",
      [⟨"/dev/nvme0n1p1", "nvme0n1p1", "512M", "vfat", "", "", "", "",
        "/dev/nvme0n1", true⟩]⟩
    (by decide)
    ⟨"/dev/nvme0n1p1", "nvme0n1p1", "512M", "vfat", "", "", "", "",
      "/dev/nvme0n1", true⟩
    (by decide)
